import Mathlib

/-!
Shallow embedding of `src/scraper.py` (news-trend-analyser): a batch news
scraper that discovers articles per site, extracts and enriches them,
normalizes publish timestamps to a target timezone, filters records with no
usable content, concatenates per-site results, deduplicates by URL
(first-seen-wins) and writes CSV/JSONL outputs.

External collaborators (newspaper3k download/parse/nlp, dateutil tz database,
pandas/json serialization, the network) are modelled as inputs: an extraction
attempt either fails (an exception) or yields the raw fields the library
returned; the serializers are function parameters.  Everything the repository
code itself does — the normalization arithmetic of `parse_article`, the
filter and exception handling of `scrape_site`, the sleep placement, the
dedup loop of `main`, the empty-input branch of `save_outputs` — is
translated directly.
-/

/-! ## Configuration constants (scraper.py lines 14-30) -/

def NEWS_SITES : List String :=
  ["https://g1.globo.com", "https://www.bbc.com/portuguese",
   "https://www1.folha.uol.com.br", "https://www.terra.com.br",
   "https://oglobo.globo.com", "https://www.uol.com.br"]

def MAX_PER_SITE : Nat := 40

/-- `TARGET_TZ = "America/Sao_Paulo"`.  Since 2019 this zone has a fixed
UTC-03:00 offset (no DST), so `tz.gettz(TARGET_TZ)` is modelled as a fixed
offset of -180 minutes from UTC. -/
def TARGET_TZ_OFFSET : Int := -180

/-! ## Python datetime model

A `datetime` value is wall-clock time (seconds since 1970-01-01T00:00:00 in
its own frame; microseconds are not modelled — all values in this pipeline
are whole seconds) together with an optional fixed UTC offset in minutes.
`tzOffsetMin = none` models a naive datetime. -/

structure PyDatetime where
  wall : Int
  tzOffsetMin : Option Int
deriving DecidableEq, Repr

/-- The absolute instant (seconds since the epoch, UTC) denoted by an aware
datetime.  (For naive values this treats the wall clock as UTC; in the code
`astimezone` is only reached on aware values.) -/
def PyDatetime.instant (d : PyDatetime) : Int :=
  d.wall - 60 * d.tzOffsetMin.getD 0

/-- `d.replace(tzinfo=...)`: swap the timezone, keep the wall clock. -/
def PyDatetime.replaceTz (d : PyDatetime) (o : Option Int) : PyDatetime :=
  { d with tzOffsetMin := o }

/-- `d.astimezone(target)` for an aware `d`: same instant, wall clock
re-expressed at the target offset.  (Python would interpret a naive `d` in
the system zone; the pipeline never does that, and the model reads a missing
offset as 0.) -/
def PyDatetime.astimezone (d : PyDatetime) (target : Int) : PyDatetime :=
  { wall := d.instant + 60 * target, tzOffsetMin := some target }

/-! ### `datetime.isoformat()` -/

/-- Days-since-epoch to civil (year, month, day); standard Gregorian
conversion using floor/Euclidean division (the divisors are positive, so
`Int.ediv` agrees with mathematical floor division). -/
def civilFromDays (z0 : Int) : Int × Int × Int :=
  let z := z0 + 719468
  let era := Int.ediv z 146097
  let doe := Int.emod z 146097
  let yoe := Int.ediv (doe - Int.ediv doe 1460 + Int.ediv doe 36524 - Int.ediv doe 146096) 365
  let y := yoe + era * 400
  let doy := doe - (365 * yoe + Int.ediv yoe 4 - Int.ediv yoe 100)
  let mp := Int.ediv (5 * doy + 2) 153
  let d := doy - Int.ediv (153 * mp + 2) 5 + 1
  let m := mp + (if mp < 10 then 3 else -9)
  (y + (if m ≤ 2 then 1 else 0), m, d)

/-- Two-digit zero padding for field values in `0 ≤ n < 100`. -/
def pad2 (n : Int) : String :=
  if n < 10 then "0" ++ toString n else toString n

/-- The `±HH:MM` suffix `isoformat` appends for an aware value (empty for a
naive one). -/
def offsetSuffix : Option Int → String
  | none => ""
  | some o =>
    let a := if o < 0 then -o else o
    (if o < 0 then "-" else "+") ++ pad2 (Int.ediv a 60) ++ ":" ++ pad2 (Int.emod a 60)

/-- The `YYYY-MM-DDTHH:MM:SS` part of `isoformat` (years 1000-9999 render as
four digits; sub-second precision is not modelled). -/
def isoCore (d : PyDatetime) : String :=
  let days := Int.ediv d.wall 86400
  let secs := Int.emod d.wall 86400
  let c := civilFromDays days
  toString c.1 ++ "-" ++ pad2 c.2.1 ++ "-" ++ pad2 c.2.2 ++ "T" ++
    pad2 (Int.ediv secs 3600) ++ ":" ++ pad2 (Int.emod (Int.ediv secs 60) 60) ++ ":" ++
    pad2 (Int.emod secs 60)

/-- `d.isoformat()`. -/
def PyDatetime.isoformat (d : PyDatetime) : String :=
  isoCore d ++ offsetSuffix d.tzOffsetMin

/-! ## Raw publish dates and the normalizer (scraper.py lines 68-76)

`article.publish_date` is whatever the underlying parser produced: absent
(`None`), a `datetime`, or some other non-datetime value (e.g. a string),
which `isinstance(pub_date, datetime)` rejects. -/

inductive RawPublish where
  | absent
  | dt (d : PyDatetime)
  | nonDatetime (v : String)
deriving DecidableEq, Repr

/-- The aware datetime `parse_article` builds from a raw `datetime` before
serializing: a naive value gets `replace(tzinfo=timezone.utc)`, then
`astimezone(tz.gettz(TARGET_TZ))`. -/
def normalizeDT (d : PyDatetime) (target : Int) : PyDatetime :=
  let d1 := match d.tzOffsetMin with
    | none => d.replaceTz (some 0)
    | some _ => d
  d1.astimezone target

/-- Lines 69-76 of scraper.py: `pub_date_iso` as a function of the raw
publish value and the target offset. -/
def normalizePublish (pub : RawPublish) (target : Int) : Option String :=
  match pub with
  | .dt d => some (normalizeDT d target).isoformat
  | _ => none

/-! ## Raw extracted articles and `parse_article` (scraper.py lines 48-90)

`RawArticle` is what newspaper3k's `download()`/`parse()`/`nlp()` yield for
one article.  `Option` fields model Python attributes that may be `None`
(or absent, for `source_url`, `top_image`, `movies`); `nlp = none` models
`article.nlp()` raising, which the code catches (lines 56-62). -/

structure RawArticle where
  title : Option String
  url : String
  text : Option String
  authors : Option (List String)
  top_image : Option String
  movies : Option (List String)
  publish_date : RawPublish
  source_url : Option String
  nlp : Option (List String × String)
deriving DecidableEq, Repr

/-- The dictionary `parse_article` returns (scraper.py lines 78-90). -/
structure ArticleRecord where
  title : String
  url : String
  text : String
  authors : List String
  top_image : String
  movies : List String
  publish_date : Option String
  source_url : String
  keywords : List String
  summary : String
  download_date : String
deriving DecidableEq, Repr

/-- `parse_article` on an article whose download/parse succeeded, given the
target offset and the current `datetime.now(...).isoformat()` string. -/
def parse_article (target : Int) (now : String) (raw : RawArticle) : ArticleRecord :=
  let enr := match raw.nlp with
    | some ks => ks
    | none => ([], "")
  { title := raw.title.getD ""
    url := raw.url
    text := raw.text.getD ""
    authors := raw.authors.getD []
    top_image := raw.top_image.getD ""
    movies := raw.movies.getD []
    publish_date := normalizePublish raw.publish_date target
    source_url := raw.source_url.getD ""
    keywords := enr.1
    summary := enr.2
    download_date := now }

/-! ## The site pipeline `scrape_site` (scraper.py lines 93-129)

One extraction attempt either raises somewhere in `parse_article`
(`download()`/`parse()` failing with `ArticleException` or anything else —
both `except` arms do `continue`) or yields a `RawArticle`. -/

inductive ExtractAttempt where
  | failure
  | success (raw : RawArticle)
deriving DecidableEq, Repr

/-- `newspaper.build` either raises (caught at lines 100-102) or yields a
source whose `articles` list carries the per-article outcomes. -/
inductive BuildOutcome where
  | failure
  | success (articles : List ExtractAttempt)
deriving DecidableEq, Repr

/-- Observable events of the per-candidate loop (lines 112-127), in program
order: each candidate contributes `failed` (exception caught, `continue`),
`skippedEmpty` (parsed but title and text both empty, `continue`), or
`accepted r` followed by `sleep` — `time.sleep(SLEEP_BETWEEN)` at line 119
executes only on the path that ran `out.append(data)`. -/
inductive Event where
  | accepted (r : ArticleRecord)
  | sleep
  | skippedEmpty
  | failed
deriving DecidableEq, Repr

/-- The loop body of lines 112-127 over the (already truncated) candidate
list; `i` indexes the candidate so each attempt reads its own clock for
`download_date`. -/
def loopTrace (target : Int) (clock : Nat → String) : Nat → List ExtractAttempt → List Event
  | _, [] => []
  | i, .failure :: rest => .failed :: loopTrace target clock (i + 1) rest
  | i, .success raw :: rest =>
    let data := parse_article target (clock i) raw
    if data.title = "" ∧ data.text = "" then
      .skippedEmpty :: loopTrace target clock (i + 1) rest
    else
      .accepted data :: .sleep :: loopTrace target clock (i + 1) rest

/-- The `out` list: the accepted records of a trace, in order. -/
def acceptedOf : List Event → List ArticleRecord
  | [] => []
  | .accepted r :: rest => r :: acceptedOf rest
  | _ :: rest => acceptedOf rest

/-- Number of `time.sleep` calls in a trace. -/
def sleepCount : List Event → Nat
  | [] => 0
  | .sleep :: rest => 1 + sleepCount rest
  | _ :: rest => sleepCount rest

/-- Number of candidates the loop attempted (each candidate yields exactly
one non-`sleep` event). -/
def attemptedCount : List Event → Nat
  | [] => 0
  | .sleep :: rest => attemptedCount rest
  | _ :: rest => 1 + attemptedCount rest

/-- True when the `sleep` events of a trace occur exactly once immediately
after each `accepted` event and nowhere else. -/
def sleepsFollowAccepted : List Event → Bool
  | [] => true
  | .accepted _ :: rest =>
    match rest with
    | .sleep :: rest2 => sleepsFollowAccepted rest2
    | _ => false
  | .sleep :: _ => false
  | .skippedEmpty :: rest => sleepsFollowAccepted rest
  | .failed :: rest => sleepsFollowAccepted rest

/-- The event trace of `scrape_site url max_items`: a failed `build_source`
returns early (lines 98-102), an empty `src.articles` returns early (lines
105-107), otherwise the loop runs over `src.articles[:max_items]`.  Neither
early return nor discovery itself emits a `sleep`. -/
def scrape_siteTrace (target : Int) (clock : Nat → String)
    (b : BuildOutcome) (max_items : Nat) : List Event :=
  match b with
  | .failure => []
  | .success articles =>
    if articles.isEmpty then []
    else loopTrace target clock 0 (articles.take max_items)

/-- `scrape_site`: the list of records it returns. -/
def scrape_site (target : Int) (clock : Nat → String)
    (b : BuildOutcome) (max_items : Nat) : List ArticleRecord :=
  acceptedOf (scrape_siteTrace target clock b max_items)

/-! ## Aggregation and dedup in `main` (scraper.py lines 154-170) -/

/-- The `all_rows` accumulation loop (lines 155-158): each site is scraped
(with its own build outcome and clock) and the results are concatenated in
configured site order. -/
def runSites (target : Int) (max_items : Nat) :
    List (BuildOutcome × (Nat → String)) → List ArticleRecord
  | [] => []
  | (b, clock) :: sites =>
    scrape_site target clock b max_items ++ runSites target max_items sites

/-- The dedup loop of lines 161-167 with the `seen` set of urls made
explicit (list membership models Python set membership). -/
def dedupAux (seen : List String) : List ArticleRecord → List ArticleRecord
  | [] => []
  | r :: rest =>
    if r.url ∈ seen then dedupAux seen rest
    else r :: dedupAux (r.url :: seen) rest

/-- `deduped` as computed by `main` from `all_rows`. -/
def dedup (rows : List ArticleRecord) : List ArticleRecord :=
  dedupAux [] rows

/-- The deduplicated result set `main` passes to `save_outputs`. -/
def mainRecords (target : Int) (max_items : Nat)
    (sites : List (BuildOutcome × (Nat → String))) : List ArticleRecord :=
  dedup (runSites target max_items sites)

/-! ## The writer `save_outputs` (scraper.py lines 132-151)

The file system is an association list path ↦ content; the CSV and JSONL
serializers (pandas `to_csv`, `json.dumps` — external collaborators) are
parameters.  The function returns the new file system and the printed log
lines. -/

def writeFile (fs : List (String × String)) (path content : String) :
    List (String × String) :=
  (path, content) :: fs.filter (fun e => e.1 ≠ path)

def save_outputs (csvOf jsonlOf : List ArticleRecord → String)
    (fs : List (String × String)) (rows : List ArticleRecord) (base_name : String) :
    List (String × String) × List String :=
  if rows.isEmpty then
    (fs, ["[INFO] Nada para salvar."])
  else
    let csv_path := base_name ++ ".csv"
    let fs1 := writeFile fs csv_path (csvOf rows)
    let jsonl_path := base_name ++ ".jsonl"
    let fs2 := writeFile fs1 jsonl_path (jsonlOf rows)
    (fs2, ["[OK] CSV salvo em: " ++ csv_path, "[OK] JSONL salvo em: " ++ jsonl_path])

/-! ## Concrete articles used to instantiate the theorems -/

def testClock : Nat → String := fun _ => "2024-05-01T12:00:00-03:00"

/-- An article that parses with usable content. -/
def rawGood : RawArticle :=
  { title := some "Eleicoes 2024", url := "https://g1.globo.com/noticia-1",
    text := some "Corpo da materia.", authors := some ["Ana"],
    top_image := none, movies := none, publish_date := .absent,
    source_url := some "https://g1.globo.com", nlp := some (["eleicoes"], "Resumo.") }

/-- An article that parses but has neither title nor text (and whose `nlp()`
raised). -/
def rawEmpty : RawArticle :=
  { title := none, url := "https://g1.globo.com/vazio", text := none,
    authors := none, top_image := none, movies := none,
    publish_date := .absent, source_url := none, nlp := none }

/-- An article with usable content but an empty `url`. -/
def rawNoUrl : RawArticle :=
  { title := some "Sem URL", url := "", text := none, authors := none,
    top_image := none, movies := none, publish_date := .absent,
    source_url := none, nlp := none }

/-! ## Claim theorems -/

/-- C3: the normalizer returns `none` for an absent raw publish date; a
timezone-naive value is first reinterpreted as UTC (normalizing it equals
normalizing the same wall clock stamped with offset 0), so the naive wall
clock 2024-01-01T10:00:00 with the UTC-3 target yields
`2024-01-01T07:00:00-03:00`; a timezone-aware value is converted directly,
preserving its absolute instant; and every non-null result is the ISO-8601
rendering of a value carrying the target offset. -/
theorem C3_normalizer_policy :
    (∀ target : Int, normalizePublish RawPublish.absent target = none) ∧
    (∀ w target : Int,
      normalizePublish (RawPublish.dt ⟨w, none⟩) target
        = normalizePublish (RawPublish.dt ⟨w, some 0⟩) target) ∧
    (normalizePublish (RawPublish.dt ⟨1704103200, none⟩) TARGET_TZ_OFFSET
        = some "2024-01-01T07:00:00-03:00") ∧
    (∀ w o target : Int,
      (normalizeDT ⟨w, some o⟩ target).instant = PyDatetime.instant ⟨w, some o⟩) ∧
    (∀ (d : PyDatetime) (target : Int),
      normalizePublish (RawPublish.dt d) target
        = some (isoCore (normalizeDT d target) ++ offsetSuffix (some target))) := by
  refine ⟨fun _ => rfl, fun _ _ => rfl, rfl, ?_, ?_⟩
  · intro w o target
    simp [normalizeDT, PyDatetime.astimezone, PyDatetime.instant]
  · intro d target
    cases h : d.tzOffsetMin <;>
      simp [normalizePublish, normalizeDT, PyDatetime.isoformat, PyDatetime.astimezone,
        PyDatetime.replaceTz, h]

/-- C10: whenever the raw `publish_date` is not a `datetime` instance —
absent or any non-datetime value the parser returned — the emitted record
has `publish_date = none`; only `datetime` values reach normalization. -/
theorem C10_non_datetime_publish_is_null
    (target : Int) (now : String) (raw : RawArticle)
    (h : ∀ d, raw.publish_date ≠ RawPublish.dt d) :
    (parse_article target now raw).publish_date = none := by
  have : (parse_article target now raw).publish_date
      = normalizePublish raw.publish_date target := rfl
  rw [this]
  cases hp : raw.publish_date with
  | absent => rfl
  | dt d => exact absurd hp (h d)
  | nonDatetime v => rfl

theorem C10_witness :
    (parse_article TARGET_TZ_OFFSET "2024-05-01T12:00:00-03:00" rawEmpty).publish_date
      = none :=
  C10_non_datetime_publish_is_null TARGET_TZ_OFFSET "2024-05-01T12:00:00-03:00" rawEmpty
    (fun _ h => RawPublish.noConfusion h)

/-- C4: when the underlying keyword/summary computation fails (the
`article.nlp()` call raises, `raw.nlp = none`), `parse_article` still
produces the record, with `keywords = []` and `summary = ""`; the enrichment
failure never propagates (`parse_article` is total in the nlp outcome). -/
theorem C4_enrichment_degrades
    (target : Int) (now : String) (raw : RawArticle) (h : raw.nlp = none) :
    (parse_article target now raw).keywords = [] ∧
      (parse_article target now raw).summary = "" := by
  constructor <;> simp [parse_article, h]

theorem C4_witness :
    (parse_article TARGET_TZ_OFFSET (testClock 0) rawEmpty).keywords = [] ∧
      (parse_article TARGET_TZ_OFFSET (testClock 0) rawEmpty).summary = "" :=
  C4_enrichment_degrades TARGET_TZ_OFFSET (testClock 0) rawEmpty rfl

/-- C9: on an empty result set `save_outputs` writes nothing — the file
system is returned unchanged, no `.csv` or `.jsonl` artifact is created —
and the only observable output is the log line reporting that there was
nothing to save. -/
theorem C9_empty_resultset_writes_nothing :
    ∀ (csvOf jsonlOf : List ArticleRecord → String)
      (fs : List (String × String)) (base_name : String),
      save_outputs csvOf jsonlOf fs [] base_name
        = (fs, ["[INFO] Nada para salvar."]) :=
  fun _ _ _ _ => rfl

/-! ### Dedup lemmas -/

theorem dedupAux_find? (u : String) :
    ∀ (l : List ArticleRecord) (seen : List String), u ∉ seen →
      (dedupAux seen l).find? (fun r => r.url == u)
        = l.find? (fun r => r.url == u)
  | [], _, _ => rfl
  | r :: rest, seen, hu => by
    by_cases hmem : r.url ∈ seen
    · have hne : (r.url == u) = false := by
        rw [beq_eq_false_iff_ne]
        intro he
        exact hu (he ▸ hmem)
      rw [dedupAux, if_pos hmem, List.find?_cons_of_neg _ (by simp [hne]),
        dedupAux_find? u rest seen hu]
    · rw [dedupAux, if_neg hmem]
      by_cases hru : r.url = u
      · rw [List.find?_cons_of_pos _ (by simp [hru]),
          List.find?_cons_of_pos _ (by simp [hru])]
      · have hu2 : u ∉ r.url :: seen := by
          simp only [List.mem_cons]
          rintro (h | h)
          · exact hru h.symm
          · exact hu h
        rw [List.find?_cons_of_neg _ (by simp [hru]),
          List.find?_cons_of_neg _ (by simp [hru]),
          dedupAux_find? u rest (r.url :: seen) hu2]

theorem dedupAux_nodup :
    ∀ (l : List ArticleRecord) (seen : List String),
      ((dedupAux seen l).map (fun r => r.url)).Nodup ∧
        ∀ u ∈ (dedupAux seen l).map (fun r => r.url), u ∉ seen
  | [], seen => by simp [dedupAux]
  | r :: rest, seen => by
    by_cases hmem : r.url ∈ seen
    · rw [dedupAux, if_pos hmem]
      exact dedupAux_nodup rest seen
    · rw [dedupAux, if_neg hmem]
      obtain ⟨ih1, ih2⟩ := dedupAux_nodup rest (r.url :: seen)
      refine ⟨List.nodup_cons.mpr ⟨fun hc => ?_, ih1⟩, ?_⟩
      · exact (ih2 r.url hc) (List.mem_cons_self _ _)
      · intro u hu
        rcases List.mem_cons.mp hu with h | h
        · exact h ▸ hmem
        · exact fun hs => (ih2 u h) (List.mem_cons_of_mem _ hs)

theorem dedupAux_subset :
    ∀ (l : List ArticleRecord) (seen : List String) (r : ArticleRecord),
      r ∈ dedupAux seen l → r ∈ l
  | [], _, _, h => by simp [dedupAux] at h
  | a :: rest, seen, r, h => by
    by_cases hmem : a.url ∈ seen
    · rw [dedupAux, if_pos hmem] at h
      exact List.mem_cons_of_mem _ (dedupAux_subset rest seen r h)
    · rw [dedupAux, if_neg hmem] at h
      rcases List.mem_cons.mp h with h | h
      · exact h ▸ List.mem_cons_self _ _
      · exact List.mem_cons_of_mem _ (dedupAux_subset rest (a.url :: seen) r h)

theorem dedupAux_of_nodup :
    ∀ (l : List ArticleRecord) (seen : List String),
      (l.map (fun r => r.url)).Nodup → (∀ r ∈ l, r.url ∉ seen) →
      dedupAux seen l = l
  | [], _, _, _ => rfl
  | r :: rest, seen, hnd, hdisj => by
    have hmem : r.url ∉ seen := hdisj r (List.mem_cons_self _ _)
    rw [dedupAux, if_neg hmem]
    rw [List.map_cons] at hnd
    obtain ⟨hhead, htail⟩ := List.nodup_cons.mp hnd
    refine congrArg _ (dedupAux_of_nodup rest (r.url :: seen) htail ?_)
    intro a ha
    simp only [List.mem_cons]
    rintro (h | h)
    · exact hhead (h ▸ List.mem_map_of_mem _ ha)
    · exact hdisj a (List.mem_cons_of_mem _ ha) h

/-- C1: the result set `main` builds — `dedup` applied to the concatenation
of the per-site lists in configured site order — contains no two records
with the same `url`; every record it keeps comes from the concatenated
pre-dedup sequence; and for every url the record it keeps (the first match
by `find?`) is exactly the first occurrence of that url in the pre-dedup
sequence. -/
theorem C1_dedup_first_seen_wins :
    ∀ (target : Int) (max_items : Nat)
      (sites : List (BuildOutcome × (Nat → String))),
      ((mainRecords target max_items sites).map (fun r => r.url)).Nodup ∧
      (∀ r ∈ mainRecords target max_items sites, r ∈ runSites target max_items sites) ∧
      (∀ u : String,
        (mainRecords target max_items sites).find? (fun r => r.url == u)
          = (runSites target max_items sites).find? (fun r => r.url == u)) := by
  intro target max_items sites
  refine ⟨(dedupAux_nodup _ []).1, ?_, ?_⟩
  · exact fun r hr => dedupAux_subset _ [] r hr
  · exact fun u => dedupAux_find? u _ [] (List.not_mem_nil u)

/-- C7: deduplication is deterministic (it is a pure function of its input,
so equal inputs give equal outputs) and idempotent: a second pass over the
output of the first changes nothing. -/
theorem C7_dedup_idempotent :
    ∀ rows : List ArticleRecord,
      dedup rows = dedup rows ∧ dedup (dedup rows) = dedup rows := by
  intro rows
  refine ⟨rfl, ?_⟩
  exact dedupAux_of_nodup (dedup rows) [] (dedupAux_nodup rows []).1
    (fun r _ => List.not_mem_nil r.url)

/-! ### Site-pipeline lemmas -/

theorem mem_acceptedOf_loopTrace :
    ∀ (arts : List ExtractAttempt) (target : Int) (clock : Nat → String) (i : Nat)
      (r : ArticleRecord), r ∈ acceptedOf (loopTrace target clock i arts) →
      ∃ raw j, ExtractAttempt.success raw ∈ arts ∧
        r = parse_article target (clock j) raw ∧ ¬(r.title = "" ∧ r.text = "")
  | [], _, _, _, _, h => absurd h (by simp [loopTrace, acceptedOf])
  | .failure :: rest, target, clock, i, r, h => by
    obtain ⟨raw, j, hmem, hr, hc⟩ :=
      mem_acceptedOf_loopTrace rest target clock (i + 1) r h
    exact ⟨raw, j, List.mem_cons_of_mem _ hmem, hr, hc⟩
  | .success raw :: rest, target, clock, i, r, h => by
    simp only [loopTrace] at h
    by_cases hcond : (parse_article target (clock i) raw).title = ""
        ∧ (parse_article target (clock i) raw).text = ""
    · rw [if_pos hcond] at h
      obtain ⟨raw2, j, hmem, hr, hc⟩ :=
        mem_acceptedOf_loopTrace rest target clock (i + 1) r h
      exact ⟨raw2, j, List.mem_cons_of_mem _ hmem, hr, hc⟩
    · rw [if_neg hcond] at h
      rcases List.mem_cons.mp h with h | h
      · exact ⟨raw, i, List.mem_cons_self _ _, h, by rw [h]; exact hcond⟩
      · obtain ⟨raw2, j, hmem, hr, hc⟩ :=
          mem_acceptedOf_loopTrace rest target clock (i + 1) r h
        exact ⟨raw2, j, List.mem_cons_of_mem _ hmem, hr, hc⟩

theorem mem_scrape_site_success
    (target : Int) (clock : Nat → String) (arts : List ExtractAttempt)
    (max_items : Nat) (r : ArticleRecord)
    (h : r ∈ scrape_site target clock (BuildOutcome.success arts) max_items) :
    ∃ raw j, ExtractAttempt.success raw ∈ arts ∧
      r = parse_article target (clock j) raw ∧ ¬(r.title = "" ∧ r.text = "") := by
  by_cases he : arts.isEmpty
  · simp [scrape_site, scrape_siteTrace, he, acceptedOf] at h
  · rw [scrape_site, scrape_siteTrace, if_neg he] at h
    obtain ⟨raw, j, hmem, hr, hc⟩ :=
      mem_acceptedOf_loopTrace (arts.take max_items) target clock 0 r h
    exact ⟨raw, j, List.take_subset _ _ hmem, hr, hc⟩

theorem sleepsFollowAccepted_loopTrace :
    ∀ (arts : List ExtractAttempt) (target : Int) (clock : Nat → String) (i : Nat),
      sleepsFollowAccepted (loopTrace target clock i arts) = true
  | [], _, _, _ => rfl
  | .failure :: rest, target, clock, i =>
    sleepsFollowAccepted_loopTrace rest target clock (i + 1)
  | .success raw :: rest, target, clock, i => by
    simp only [loopTrace]
    by_cases hcond : (parse_article target (clock i) raw).title = ""
        ∧ (parse_article target (clock i) raw).text = ""
    · rw [if_pos hcond]
      exact sleepsFollowAccepted_loopTrace rest target clock (i + 1)
    · rw [if_neg hcond]
      exact sleepsFollowAccepted_loopTrace rest target clock (i + 1)

theorem sleepCount_loopTrace :
    ∀ (arts : List ExtractAttempt) (target : Int) (clock : Nat → String) (i : Nat),
      sleepCount (loopTrace target clock i arts)
        = (acceptedOf (loopTrace target clock i arts)).length
  | [], _, _, _ => rfl
  | .failure :: rest, target, clock, i =>
    sleepCount_loopTrace rest target clock (i + 1)
  | .success raw :: rest, target, clock, i => by
    simp only [loopTrace]
    by_cases hcond : (parse_article target (clock i) raw).title = ""
        ∧ (parse_article target (clock i) raw).text = ""
    · rw [if_pos hcond]
      exact sleepCount_loopTrace rest target clock (i + 1)
    · rw [if_neg hcond]
      show 1 + sleepCount (loopTrace target clock (i + 1) rest)
          = (acceptedOf (loopTrace target clock (i + 1) rest)).length + 1
      rw [sleepCount_loopTrace rest target clock (i + 1)]
      omega

/-- C2: every record the site pipeline appends has a non-empty title or a
non-empty text, and a successfully extracted candidate whose title and text
are both empty is skipped: it contributes no record to the output. -/
theorem C2_emitted_records_have_content :
    (∀ (target : Int) (clock : Nat → String) (b : BuildOutcome) (max_items : Nat)
      (r : ArticleRecord), r ∈ scrape_site target clock b max_items →
      r.title ≠ "" ∨ r.text ≠ "") ∧
    (∀ (target : Int) (clock : Nat → String) (i : Nat) (raw : RawArticle)
      (rest : List ExtractAttempt),
      (parse_article target (clock i) raw).title = "" →
      (parse_article target (clock i) raw).text = "" →
      acceptedOf (loopTrace target clock i (ExtractAttempt.success raw :: rest))
        = acceptedOf (loopTrace target clock (i + 1) rest)) := by
  constructor
  · intro target clock b max_items r hr
    cases b with
    | failure => simp [scrape_site, scrape_siteTrace, acceptedOf] at hr
    | success arts =>
      obtain ⟨raw, j, _, _, hc⟩ :=
        mem_scrape_site_success target clock arts max_items r hr
      exact not_and_or.mp hc
  · intro target clock i raw rest h1 h2
    simp only [loopTrace]
    rw [if_pos ⟨h1, h2⟩]
    rfl

theorem C2_witness :
    ((parse_article TARGET_TZ_OFFSET (testClock 0) rawGood).title ≠ ""
      ∨ (parse_article TARGET_TZ_OFFSET (testClock 0) rawGood).text ≠ "") ∧
    acceptedOf (loopTrace TARGET_TZ_OFFSET testClock 0
        (ExtractAttempt.success rawEmpty :: []))
      = acceptedOf (loopTrace TARGET_TZ_OFFSET testClock 1 []) :=
  ⟨C2_emitted_records_have_content.1 TARGET_TZ_OFFSET testClock
      (BuildOutcome.success [ExtractAttempt.success rawGood]) MAX_PER_SITE
      (parse_article TARGET_TZ_OFFSET (testClock 0) rawGood) (by decide),
    C2_emitted_records_have_content.2 TARGET_TZ_OFFSET testClock 0 rawEmpty [] rfl rfl⟩

/-- C5: failure isolation.  A site whose `build_source` raises yields the
empty record list (the exception is caught at lines 100-102); a candidate
whose extraction raises contributes exactly one `failed` event and no
record, and the loop proceeds with the remaining candidates; and a failed
site leaves the aggregation of the remaining sites unchanged.  All the
functions involved are total: no failure escapes `scrape_site` or the
per-site loop of `main`. -/
theorem C5_failures_skip_and_continue :
    (∀ (target : Int) (clock : Nat → String) (max_items : Nat),
      scrape_site target clock BuildOutcome.failure max_items = []) ∧
    (∀ (target : Int) (clock : Nat → String) (i : Nat) (rest : List ExtractAttempt),
      loopTrace target clock i (ExtractAttempt.failure :: rest)
        = Event.failed :: loopTrace target clock (i + 1) rest) ∧
    (∀ (target : Int) (clock : Nat → String) (i : Nat) (rest : List ExtractAttempt),
      acceptedOf (loopTrace target clock i (ExtractAttempt.failure :: rest))
        = acceptedOf (loopTrace target clock (i + 1) rest)) ∧
    (∀ (target : Int) (max_items : Nat) (clock : Nat → String)
      (sites : List (BuildOutcome × (Nat → String))),
      runSites target max_items ((BuildOutcome.failure, clock) :: sites)
        = runSites target max_items sites) :=
  ⟨fun _ _ _ => rfl, fun _ _ _ _ => rfl, fun _ _ _ _ => rfl, fun _ _ _ _ => rfl⟩

/-- C6 counterexample: a site with two candidates, the first successfully
extracted but empty (skipped at line 117) and the second failing (caught at
lines 120-127), attempts both candidates yet sleeps zero times — the
`time.sleep` at line 119 sits after `out.append(data)` and is not reached on
the skip or failure paths, so no delay is observed after a skipped or failed
candidate. -/
theorem C6_counterexample_no_sleep_after_skip :
    attemptedCount (scrape_siteTrace TARGET_TZ_OFFSET testClock
        (BuildOutcome.success [ExtractAttempt.success rawEmpty, ExtractAttempt.failure])
        MAX_PER_SITE) = 2 ∧
    sleepCount (scrape_siteTrace TARGET_TZ_OFFSET testClock
        (BuildOutcome.success [ExtractAttempt.success rawEmpty, ExtractAttempt.failure])
        MAX_PER_SITE) = 0 := by
  exact ⟨rfl, rfl⟩

/-- C6 amended: the fixed inter-request delay is observed exactly once
immediately after each accepted candidate (one whose record is appended) and
at no other point of the loop: candidates that fail or are skipped for empty
content proceed to the next candidate with no delay, the number of sleeps
equals the number of accepted records, and no delay surrounds discovery (a
failed or empty discovery produces an empty trace with no sleep). -/
theorem C6_amended_sleep_only_after_accepted :
    (∀ (target : Int) (clock : Nat → String) (b : BuildOutcome) (max_items : Nat),
      sleepsFollowAccepted (scrape_siteTrace target clock b max_items) = true) ∧
    (∀ (target : Int) (clock : Nat → String) (b : BuildOutcome) (max_items : Nat),
      sleepCount (scrape_siteTrace target clock b max_items)
        = (scrape_site target clock b max_items).length) ∧
    (∀ (target : Int) (clock : Nat → String) (max_items : Nat),
      scrape_siteTrace target clock BuildOutcome.failure max_items = []) := by
  refine ⟨?_, ?_, fun _ _ _ => rfl⟩
  · intro target clock b max_items
    cases b with
    | failure => rfl
    | success arts =>
      by_cases he : arts.isEmpty
      · rw [scrape_siteTrace, if_pos he]
        rfl
      · rw [scrape_siteTrace, if_neg he]
        exact sleepsFollowAccepted_loopTrace (arts.take max_items) target clock 0
  · intro target clock b max_items
    cases b with
    | failure => rfl
    | success arts =>
      by_cases he : arts.isEmpty
      · rw [scrape_site, scrape_siteTrace, if_pos he]
        rfl
      · rw [scrape_site, scrape_siteTrace, if_neg he]
        exact sleepCount_loopTrace (arts.take max_items) target clock 0

/-- C8 counterexample: an article extracted with an empty `url` and a
non-empty title passes the content filter at line 116 — the only filter in
`scrape_site` — so the pipeline emits a record whose `url` is the empty
string; nothing in the code rejects records without a resolvable URL. -/
theorem C8_counterexample_empty_url_emitted :
    (scrape_site TARGET_TZ_OFFSET testClock
        (BuildOutcome.success [ExtractAttempt.success rawNoUrl]) MAX_PER_SITE).map
      (fun r => r.url) = [""] := by
  rfl

/-- C8 amended: `parse_article` copies the extracted article's `url`
verbatim into the record and `scrape_site` adds no check on it, so emitted
records carry a non-empty `url` exactly when the extractor supplies one: if
every successfully extracted candidate has a non-empty `url`, every emitted
record does. -/
theorem C8_amended_url_verbatim_from_extractor
    (target : Int) (clock : Nat → String) (arts : List ExtractAttempt)
    (max_items : Nat) (r : ArticleRecord)
    (hurl : ∀ raw, ExtractAttempt.success raw ∈ arts → raw.url ≠ "")
    (hr : r ∈ scrape_site target clock (BuildOutcome.success arts) max_items) :
    r.url ≠ "" := by
  obtain ⟨raw, j, hmem, heq, _⟩ :=
    mem_scrape_site_success target clock arts max_items r hr
  rw [heq]
  exact hurl raw hmem

theorem C8_witness :
    (parse_article TARGET_TZ_OFFSET (testClock 0) rawGood).url ≠ "" :=
  C8_amended_url_verbatim_from_extractor TARGET_TZ_OFFSET testClock
    [ExtractAttempt.success rawGood] MAX_PER_SITE
    (parse_article TARGET_TZ_OFFSET (testClock 0) rawGood)
    (fun raw h => by
      have h2 := List.mem_singleton.mp h
      injection h2 with h3
      rw [h3]
      intro hc
      exact absurd hc (by decide))
    (by decide)
